import Mathlib

/-!
Shallow embedding of the managed-runtime bridge in `src/C/m/m.c` (FQuake3).

The bridge is a thin forwarding layer over the embedded Mono runtime.  We
model the Mono API surface the bridge touches as pure Lean functions over an
explicit `World` (the runtime's loaded assemblies, class table, allocator and
invocation behaviour, all of which are ambient global state in the C code) and
an explicit `MonoHeap` for managed arrays.  Pointers are modelled as `Int`
values, with `0` standing for NULL; an `Option` models a C pointer that the
code may leave NULL.

Outcomes distinguish three terminations of a bridge call:
  * `ok v`      — the function returns the value `v`;
  * `fatal msg` — `g_error` runs: the process terminates with diagnostic `msg`;
  * `crash`     — a NULL (or invalid) pointer is dereferenced inside the
                  runtime: the process dies without a bridge diagnostic.

`find_assembly` in the C source declares `MAssemblyQuery query` on the stack
and never initializes `query.assembly`; the extra `init` parameter of the
embedded `find_assembly` models the arbitrary bit pattern that the
uninitialized stack slot holds when the scan starts (`none` = the garbage
happens to be NULL, `some a` = the garbage is a stale assembly pointer).
-/

/-- Result of one bridge call: normal return, `g_error` (process-terminating
diagnostic), or an undiagnosed native crash (NULL dereference inside Mono). -/
inductive Outcome (α : Type) where
  | ok : α → Outcome α
  | fatal : String → Outcome α
  | crash : Outcome α
deriving DecidableEq

/-- Sequencing of straight-line C code: a fatal error or crash aborts the rest. -/
def Outcome.bind {α β : Type} : Outcome α → (α → Outcome β) → Outcome β
  | Outcome.ok a, f => f a
  | Outcome.fatal s, _ => Outcome.fatal s
  | Outcome.crash, _ => Outcome.crash

/-- Map over the value of a normal return. -/
def Outcome.map {α β : Type} (f : α → β) : Outcome α → Outcome β
  | Outcome.ok a => Outcome.ok (f a)
  | Outcome.fatal s => Outcome.fatal s
  | Outcome.crash => Outcome.crash

/-- True exactly when the call ended in `g_error` (fatal diagnostic). -/
def Outcome.isFatal {α : Type} : Outcome α → Bool
  | Outcome.fatal _ => true
  | _ => false

/-- A `MonoType`: the bridge only ever asks `mono_type_is_struct` of it. -/
structure MonoType where
  is_struct : Bool
deriving DecidableEq

/-- A `MonoClass`: its type, and its members as Mono's metadata exposes them
to the lookups the bridge performs.  `methods` maps (name, parameter count)
to a method handle, `props` and `fields` map a name to a handle. -/
structure MonoClass where
  type : MonoType
  methods : List (String × Nat × Int)
  props : List (String × Int)
  fields : List (String × Int)
deriving DecidableEq

/-- A `MonoImage`: its image name (what `mono_image_get_name` returns), the
classes reachable by `mono_class_from_name`, and the methods reachable by a
fully qualified descriptor via `mono_method_desc_search_in_image`. -/
structure MonoImage where
  name : String
  classes : List (String × String × MonoClass)
  methods : List (String × Int)
deriving DecidableEq

/-- A loaded `MonoAssembly`, owning its image. -/
structure MonoAssembly where
  image : MonoImage
deriving DecidableEq

/-- `MAssemblyQuery` from m.c lines 34-37: the transient state of one
assembly scan (found assembly so far, target name). -/
structure MAssemblyQuery where
  assembly : Option MonoAssembly
  name : String
deriving DecidableEq

/-- `MObject` wraps a raw `MonoObject *` in its `__priv` field (0 = NULL). -/
structure MObject where
  __priv : Int
deriving DecidableEq

/-- `MArray` wraps a raw `MonoArray *` in its `__priv` field (0 = NULL). -/
structure MArray where
  __priv : Int
deriving DecidableEq

/-- The record an observable call into the Mono invocation API leaves behind:
which method ran, on which receiver pointer (`none` = NULL receiver), with
which boxed argument vector. -/
inductive RuntimeCall where
  | invoke (method : Int) (receiver : Option Int) (args : List Int)
  | property_set (prop : Int) (receiver : Int) (args : List Int)
  | field_set (obj : Int) (field : Int) (value : Int)
deriving DecidableEq

/-- The ambient state of the embedded Mono runtime that the bridge reads:
the loaded-assembly list that `mono_assembly_foreach` walks, the class of
each live object (`mono_object_get_class`), the allocator
(`mono_object_new`), the result each method invocation produces, and each
property getter's behaviour. -/
structure World where
  assemblies : List MonoAssembly
  klassOf : Int → MonoClass
  alloc : MonoClass → Int
  invokeResult : Int → Option Int → List Int → Int
  propGet : Int → Int → Int

/-- `assembly_get_name` (m.c 40-44): the image name of an assembly. -/
def assembly_get_name (assembly : MonoAssembly) : String :=
  assembly.image.name

/-- `mono_assembly_get_image`. -/
def mono_assembly_get_image (assembly : MonoAssembly) : MonoImage :=
  assembly.image

/-- `foreach_assembly` (m.c 46-51): one step of the scan; on a name match it
overwrites `query.assembly` with the current assembly. -/
def foreach_assembly (assembly : MonoAssembly) (query : MAssemblyQuery) : MAssemblyQuery :=
  if assembly_get_name assembly == query.name then
    { query with assembly := some assembly }
  else
    query

/-- `mono_assembly_foreach`: applies the callback to every loaded assembly in
list order, threading the query record through. -/
def mono_assembly_foreach (loaded : List MonoAssembly) (query : MAssemblyQuery) : MAssemblyQuery :=
  loaded.foldl (fun q a => foreach_assembly a q) query

/-- `find_assembly` (m.c 53-61).  The C code stack-allocates the query and
sets only `query.name`; `init` models the uninitialized content of
`query.assembly` when the scan starts. -/
def find_assembly (init : Option MonoAssembly) (name : String) (loaded : List MonoAssembly) : Option MonoAssembly :=
  (mono_assembly_foreach loaded { assembly := init, name := name }).assembly

/-- `get_method_desc` (m.c 64-68): `g_sprintf (name, "%s.%s:%s", ...)` into a
caller-supplied buffer, modelled as the formatted string itself. -/
def get_method_desc (name_space class_name method_name : String) : String :=
  name_space ++ "." ++ class_name ++ ":" ++ method_name

/-- `mono_class_from_name`: metadata lookup of a class by (namespace, name)
in an image; NULL when absent. -/
def mono_class_from_name (image : MonoImage) (name_space : String) (name : String) : Option MonoClass :=
  (image.classes.find? (fun c => c.1 == name_space && c.2.1 == name)).map (fun c => c.2.2)

/-- `mono_class_get_type`. -/
def mono_class_get_type (klass : MonoClass) : MonoType :=
  klass.type

/-- `mono_type_is_struct`: whether the type has value-type ("struct")
semantics in the host runtime. -/
def mono_type_is_struct (type : MonoType) : Bool :=
  type.is_struct

/-- `mono_class_get_method_from_name`: method lookup by name and parameter
count; NULL when no such method exists. -/
def mono_class_get_method_from_name (klass : MonoClass) (name : String) (param_count : Nat) : Option Int :=
  (klass.methods.find? (fun m => m.1 == name && m.2.1 == param_count)).map (fun m => m.2.2)

/-- `mono_class_get_property_from_name`: property lookup by name; NULL when
absent. -/
def mono_class_get_property_from_name (klass : MonoClass) (name : String) : Option Int :=
  (klass.props.find? (fun p => p.1 == name)).map (fun p => p.2)

/-- `mono_class_get_field_from_name`: field lookup by name; NULL when
absent. -/
def mono_class_get_field_from_name (klass : MonoClass) (name : String) : Option Int :=
  (klass.fields.find? (fun f => f.1 == name)).map (fun f => f.2)

/-- `mono_object_get_class`: dereferences the object pointer, so a NULL
handle is a native crash, not a diagnosed error. -/
def mono_object_get_class (w : World) (obj : Int) : Outcome MonoClass :=
  if obj == 0 then Outcome.crash else Outcome.ok (w.klassOf obj)

/-- `mono_object_new`: allocates a fresh object of the class in the ambient
domain (the `mono_domain_get ()` argument is the ambient domain and is
implicit in `World`). -/
def mono_object_new (w : World) (klass : MonoClass) : Int :=
  w.alloc klass

/-- `mono_object_unbox`: the raw storage address of a boxed value, i.e. the
object pointer advanced past the two-word `MonoObject` header (16 bytes on
the 64-bit target modelled here). -/
def mono_object_unbox (obj : Int) : Int :=
  obj + 16

/-- `mono_property_get_value`: calls through the property's getter, so a
NULL property handle is dereferenced — a native crash.  Otherwise the
world's getter behaviour produces the returned object. -/
def mono_property_get_value (w : World) (prop : Option Int) (receiver : Int) : Outcome Int :=
  match prop with
  | none => Outcome.crash
  | some p => Outcome.ok (w.propGet p receiver)

/-- `mono_property_set_value`: dereferences the property handle (crash when
NULL); otherwise the observable effect is one setter call. -/
def mono_property_set_value (prop : Option Int) (receiver : Int) (args : List Int) : Outcome (List RuntimeCall) :=
  match prop with
  | none => Outcome.crash
  | some p => Outcome.ok [RuntimeCall.property_set p receiver args]

/-- `mono_field_set_value`: dereferences the field handle (crash when NULL);
otherwise the observable effect is one field write. -/
def mono_field_set_value (obj : Int) (field : Option Int) (value : Int) : Outcome (List RuntimeCall) :=
  match field with
  | none => Outcome.crash
  | some f => Outcome.ok [RuntimeCall.field_set obj f value]

/-- `mono_runtime_invoke`: dereferences the method handle (crash when NULL);
otherwise runs the method on the given receiver pointer (`none` = NULL
receiver for static invocation) and reports the call made together with the
result the runtime produces. -/
def mono_runtime_invoke (w : World) (method : Option Int) (receiver : Option Int) (args : List Int) : Outcome (Int × List RuntimeCall) :=
  match method with
  | none => Outcome.crash
  | some m => Outcome.ok (w.invokeResult m receiver args, [RuntimeCall.invoke m receiver args])

/-- `mono_method_desc_new` + `mono_method_desc_search_in_image`: looks a
fully qualified `Namespace.Class:Method` descriptor up in an image's
metadata; NULL when absent. -/
def mono_method_desc_search_in_image (name : String) (image : MonoImage) : Option Int :=
  (image.methods.find? (fun m => m.1 == name)).map (fun m => m.2)

/-- The root domain handle `mono_jit_init_version` returns, carrying what the
bridge passed in. -/
structure MonoDomain where
  root_domain_name : String
  version : String
deriving DecidableEq

/-- `_MDomain` (m.c 30-32): the bridge's wrapper struct around the runtime
domain. -/
structure MDomain where
  domain : MonoDomain
deriving DecidableEq

/-- `mono_jit_init_version`: initializes the JIT host for the requested
version and yields the root domain. -/
def mono_jit_init_version (root_domain_name : String) (version : String) : MonoDomain :=
  { root_domain_name := root_domain_name, version := version }

/-- The `MRuntime` version-tag argument of `m_domain_new`.  The enum's
declaration lives in the repository's `m.h`, which is not under `src/`; the
two named tags are those the switch in m.c 76-86 names, and
`M_RUNTIME_OTHER n` stands for every other value a C enum variable can
carry, which the switch sends to its `default:` arm. -/
inductive MRuntime where
  | M_RUNTIME_4_0
  | M_RUNTIME_4_5
  | M_RUNTIME_OTHER (n : Nat)
deriving DecidableEq

/-- `m_domain_new` (m.c 70-91): selects the version string for the requested
tag (`g_error` on any unrecognized tag, before any JIT initialization), then
initializes the JIT host.  `mono_set_dirs` only configures external search
paths and has no observable effect inside this model; `assembly_dir` and
`config_dir` are kept as parameters for fidelity to the C signature. -/
def m_domain_new (assembly_dir : String) (config_dir : String) (root_domain_name : String) (runtime : MRuntime) : Outcome MDomain :=
  (match runtime with
   | MRuntime.M_RUNTIME_4_0 => Outcome.ok "v4.0.30319"
   | MRuntime.M_RUNTIME_4_5 => Outcome.ok "v4.0.30319"
   | MRuntime.M_RUNTIME_OTHER _ => Outcome.fatal "M: Invalid runtime version.").bind
    (fun version => Outcome.ok { domain := mono_jit_init_version root_domain_name version })

/-- `m_object` (m.c 122-149): resolve assembly (an unresolved assembly means
`mono_assembly_get_image` dereferences NULL — crash), class (an unresolved
class means `mono_object_new` dereferences NULL — crash), allocate, look the
arity-`argc` constructor up (`g_error` when absent), then invoke it on the
unboxed storage for a value type and on the boxed object for a reference
type.  The invocation result is discarded; the allocated object is
returned. -/
def m_object (w : World) (init : Option MonoAssembly) (assembly_name : String) (name_space : String) (name : String) (argc : Nat) (args : List Int) : Outcome (MObject × List RuntimeCall) :=
  match find_assembly init assembly_name w.assemblies with
  | none => Outcome.crash
  | some assembly =>
    match mono_class_from_name (mono_assembly_get_image assembly) name_space name with
    | none => Outcome.crash
    | some klass =>
      let object := mono_object_new w klass
      match mono_class_get_method_from_name klass ".ctor" argc with
      | none => Outcome.fatal ("M: Unable to find constructor for type " ++ name ++ ".\n")
      | some ctor =>
        if mono_type_is_struct (mono_class_get_type klass) then
          (mono_runtime_invoke w (some ctor) (some (mono_object_unbox object)) args).bind
            (fun r => Outcome.ok ({ __priv := object }, r.2))
        else
          (mono_runtime_invoke w (some ctor) (some object) args).bind
            (fun r => Outcome.ok ({ __priv := object }, r.2))

/-- `m_object_get_property` (m.c 152-171): class of the receiver, property
lookup by name (unchecked), then `mono_property_get_value` on the unboxed
storage for a value type and on the boxed object otherwise; the result is
wrapped as an `MObject`. -/
def m_object_get_property (w : World) (object : MObject) (property_name : String) : Outcome MObject :=
  (mono_object_get_class w object.__priv).bind fun klass =>
    let prop := mono_class_get_property_from_name klass property_name
    if mono_type_is_struct (mono_class_get_type klass) then
      (mono_property_get_value w prop (mono_object_unbox object.__priv)).map
        (fun v => { __priv := v })
    else
      (mono_property_get_value w prop object.__priv).map
        (fun v => { __priv := v })

/-- `m_object_get_property_array` (m.c 174-193): same computation as
`m_object_get_property`, with the result wrapped as an `MArray`. -/
def m_object_get_property_array (w : World) (object : MObject) (property_name : String) : Outcome MArray :=
  (mono_object_get_class w object.__priv).bind fun klass =>
    let prop := mono_class_get_property_from_name klass property_name
    if mono_type_is_struct (mono_class_get_type klass) then
      (mono_property_get_value w prop (mono_object_unbox object.__priv)).map
        (fun v => { __priv := v })
    else
      (mono_property_get_value w prop object.__priv).map
        (fun v => { __priv := v })

/-- `m_object_set_property` (m.c 196-214): property lookup by name
(unchecked), then `mono_property_set_value` with a one-element argument
vector, on unboxed storage for a value type and on the boxed object
otherwise. -/
def m_object_set_property (w : World) (object : MObject) (property_name : String) (value : Int) : Outcome (List RuntimeCall) :=
  (mono_object_get_class w object.__priv).bind fun klass =>
    let prop := mono_class_get_property_from_name klass property_name
    if mono_type_is_struct (mono_class_get_type klass) then
      mono_property_set_value prop (mono_object_unbox object.__priv) [value]
    else
      mono_property_set_value prop object.__priv [value]

/-- `m_object_set_field` (m.c 217-225): field lookup by name (unchecked),
then a direct `mono_field_set_value` on the boxed object — the computed
`type` is unused and there is no value/reference branching here. -/
def m_object_set_field (w : World) (object : MObject) (field_name : String) (value : Int) : Outcome (List RuntimeCall) :=
  (mono_object_get_class w object.__priv).bind fun klass =>
    let field := mono_class_get_field_from_name klass field_name
    let _type := mono_class_get_type klass
    mono_field_set_value object.__priv field value

/-- `m_object_invoke` (m.c 228-247): method lookup by name and argument
count (unchecked — a missing method reaches `mono_runtime_invoke` as NULL),
invoked on unboxed storage for a value type and on the boxed object
otherwise. -/
def m_object_invoke (w : World) (object : MObject) (method_name : String) (argc : Nat) (args : List Int) : Outcome (MObject × List RuntimeCall) :=
  (mono_object_get_class w object.__priv).bind fun klass =>
    let method := mono_class_get_method_from_name klass method_name argc
    if mono_type_is_struct (mono_class_get_type klass) then
      (mono_runtime_invoke w method (some (mono_object_unbox object.__priv)) args).bind
        (fun r => Outcome.ok ({ __priv := r.1 }, r.2))
    else
      (mono_runtime_invoke w method (some object.__priv) args).bind
        (fun r => Outcome.ok ({ __priv := r.1 }, r.2))

/-- `m_object_unbox` (m.c 250-257): `g_error` on a NULL handle — checked
before any dereference — otherwise the raw storage address of the boxed
value. -/
def m_object_unbox (object : MObject) : Outcome Int :=
  if object.__priv == 0 then Outcome.fatal "M: Cannot unbox null object."
  else Outcome.ok (mono_object_unbox object.__priv)

/-- `m_invoke_method` (m.c 260-292): builds the `Namespace.Class:Method`
descriptor, scans for the assembly (`g_error` when the scan result is NULL),
searches the descriptor in the assembly's image, and invokes the method with
a NULL receiver; `g_error` when the descriptor resolves to nothing. -/
def m_invoke_method (w : World) (init : Option MonoAssembly) (assembly_name : String) (name_space : String) (static_class_name : String) (method_name : String) (params : List Int) : Outcome (MObject × List RuntimeCall) :=
  let name := get_method_desc name_space static_class_name method_name
  match find_assembly init assembly_name w.assemblies with
  | none => Outcome.fatal ("M: Unable to find assembly " ++ assembly_name ++ ".\n")
  | some assembly =>
    match mono_method_desc_search_in_image name (mono_assembly_get_image assembly) with
    | some method =>
      (mono_runtime_invoke w (some method) none params).bind
        (fun r => Outcome.ok ({ __priv := r.1 }, r.2))
    | none => Outcome.fatal ("M: Unable to invoke " ++ name ++ ".\n")

/-- One allocated managed array: element class and element count. -/
structure MonoArrayRec where
  klass : MonoClass
  length : Int
deriving DecidableEq

/-- The managed-array heap, ambient state of the runtime in the C code, made
explicit: allocated arrays by address, and the next fresh address. -/
structure MonoHeap where
  arrays : List (Int × MonoArrayRec)
  next : Int
deriving DecidableEq

/-- `mono_array_new`: allocates a fresh managed array of the element class
and length in the ambient domain, returning its address. -/
def mono_array_new (h : MonoHeap) (klass : MonoClass) (n : Int) : Int × MonoHeap :=
  (h.next, { arrays := (h.next, { klass := klass, length := n }) :: h.arrays, next := h.next + 1 })

/-- `mono_array_length`: the element count stored in the array's header
(0 for an address that is no live array — a dereference of a bad pointer is
unspecified; the claims only apply it to live arrays). -/
def mono_array_length (h : MonoHeap) (p : Int) : Int :=
  match h.arrays.find? (fun e => e.1 == p) with
  | some e => e.2.length
  | none => 0

/-- `mono_get_int32_class`: the built-in `System.Int32` class, a value
type with no bridge-visible members. -/
def mono_get_int32_class : MonoClass :=
  { type := { is_struct := true }, methods := [], props := [], fields := [] }

/-- Offset of a Mono array's element storage (`vector`) from the array
header on the 64-bit target modelled here. -/
def mono_array_vector_offset : Int := 32

/-- `mono_array_addr_with_size` (the Mono macro): address of element `index`
of the array at `arr`, for caller-supplied element size. -/
def mono_array_addr_with_size (arr : Int) (size : Int) (index : Int) : Int :=
  arr + mono_array_vector_offset + size * index

/-- `m_array` (m.c 295-306): resolve assembly (crash at
`mono_assembly_get_image` when the scan yields NULL) and element class
(crash inside `mono_array_new` when NULL), then allocate the array. -/
def m_array (w : World) (h : MonoHeap) (init : Option MonoAssembly) (assembly_name : String) (name_space : String) (name : String) (size : Int) : Outcome (MArray × MonoHeap) :=
  match find_assembly init assembly_name w.assemblies with
  | none => Outcome.crash
  | some assembly =>
    match mono_class_from_name (mono_assembly_get_image assembly) name_space name with
    | none => Outcome.crash
    | some klass =>
      let r := mono_array_new h klass size
      Outcome.ok ({ __priv := r.1 }, r.2)

/-- `m_array_int32` (m.c 308-315): allocate a managed array of the built-in
32-bit integer class. -/
def m_array_int32 (h : MonoHeap) (size : Int) : MArray × MonoHeap :=
  let r := mono_array_new h mono_get_int32_class size
  ({ __priv := r.1 }, r.2)

/-- `m_array_addr_with_size` (m.c 317-321): the body computes
`mono_array_addr_with_size (object, size, index)` but DISCARDS the result
and falls off the end of a non-void function without a return statement, so
the value the caller receives is unspecified; `undef` models that
unspecified returned value. -/
def m_array_addr_with_size (undef : Int) (object : MArray) (size : Int) (index : Int) : Int :=
  let _addr := mono_array_addr_with_size object.__priv size index
  undef

/-- `m_array_length` (m.c 323-327): the element count of the array. -/
def m_array_length (h : MonoHeap) (object : MArray) : Int :=
  mono_array_length h object.__priv

/-- `foreach_assembly` never changes the target name of the query. -/
theorem foreach_assembly_name (a : MonoAssembly) (q : MAssemblyQuery) :
    (foreach_assembly a q).name = q.name := by
  unfold foreach_assembly
  split <;> rfl

/-- The scan's result slot after a full walk: the last matching assembly in
walk order when one exists, otherwise whatever the slot held at the start. -/
theorem mono_assembly_foreach_assembly_eq (loaded : List MonoAssembly) (q : MAssemblyQuery) :
    (mono_assembly_foreach loaded q).assembly =
      match loaded.reverse.find? (fun a => assembly_get_name a == q.name) with
      | some a => some a
      | none => q.assembly := by
  induction loaded generalizing q with
  | nil => simp [mono_assembly_foreach]
  | cons a rest ih =>
    have hfold : mono_assembly_foreach (a :: rest) q
        = mono_assembly_foreach rest (foreach_assembly a q) := rfl
    rw [hfold, ih, foreach_assembly_name]
    simp only [List.reverse_cons, List.find?_append]
    cases hrest : rest.reverse.find? (fun x => assembly_get_name x == q.name) with
    | some x => simp [Option.or]
    | none =>
      unfold foreach_assembly
      by_cases hpa : assembly_get_name a == q.name
      · simp [Option.or, hpa]
      · simp [Option.or, hpa, List.find?]

/-- Two distinct loaded assemblies that share the image name "X" (they
differ in their image metadata), plus assemblies named "A" and "B" used as
concrete worlds below.  `asmB` carries the descriptor `NS.C:M` in its
image. -/
def asmX1 : MonoAssembly := { image := { name := "X", classes := [], methods := [("d", 7)] } }

/-- Second loaded assembly with image name "X"; see `asmX1`. -/
def asmX2 : MonoAssembly := { image := { name := "X", classes := [], methods := [] } }

/-- A loaded assembly with image name "A" and empty metadata. -/
def asmA : MonoAssembly := { image := { name := "A", classes := [], methods := [] } }

/-- An assembly with image name "B" whose image resolves the descriptor
`NS.C:M` to method handle 5. -/
def asmB : MonoAssembly := { image := { name := "B", classes := [], methods := [("NS.C:M", 5)] } }

/-- C1 counterexample: with two loaded assemblies both named "X", the first
match in scan order is `asmX1`, yet `find_assembly` returns `asmX2` — each
match overwrites the query slot, so the scan yields the LAST match, not the
first. -/
theorem c1_counterexample :
    ([asmX1, asmX2].find? (fun a => assembly_get_name a == "X") = some asmX1) ∧
    find_assembly none "X" [asmX1, asmX2] = some asmX2 ∧
    find_assembly none "X" [asmX1, asmX2] ≠ some asmX1 := by
  decide

/-- C1 (amended): `find_assembly` scans all loaded assemblies and returns
the LAST one (in scan order) whose image name exactly matches the given
name; when none matches, the result is whatever the uninitialized query
slot held at the start of the scan. -/
theorem c1_find_assembly_returns_last_match (init : Option MonoAssembly) (name : String) (loaded : List MonoAssembly) :
    find_assembly init name loaded =
      match loaded.reverse.find? (fun a => assembly_get_name a == name) with
      | some a => some a
      | none => init := by
  unfold find_assembly
  rw [mono_assembly_foreach_assembly_eq]

/-- C2: the claim expects a NULL ("not found") result when no loaded
assembly matches, but `find_assembly` never initializes `query.assembly`
(m.c 56-58), so when nothing matches it returns the uninitialized stack
slot's content — here a stale assembly pointer — instead of NULL.  The
`if (!assembly)` null test in `m_invoke_method` (m.c 276) shows NULL is
what the code itself expects of a failed scan. -/
theorem c2_not_found_returns_uninitialized :
    find_assembly (some asmB) "Missing" [asmA] = some asmB ∧
    find_assembly (some asmB) "Missing" [asmA] ≠ none := by
  decide

/-- C3: `m_array_addr_with_size` computes the element address
(`mono_array_addr_with_size`) but discards it and falls off the end of the
non-void function, so the caller receives an unspecified value (here taken
as 0) rather than the element address: for the array at address 100,
element size 4, index 2, the element address is 140 but the function does
not return it. -/
theorem c3_addr_result_discarded :
    m_array_addr_with_size 0 { __priv := 100 } 4 2 = 0 ∧
    mono_array_addr_with_size 100 4 2 = 140 ∧
    m_array_addr_with_size 0 { __priv := 100 } 4 2 ≠ mono_array_addr_with_size 100 4 2 := by
  decide

/-- C5: `m_domain_new` accepts exactly the tags `M_RUNTIME_4_0` and
`M_RUNTIME_4_5`, both resolving to the same version string "v4.0.30319"
(so the initialized domain is identical for both), and every other tag
value hits the switch's `default:` arm, which is a fatal `g_error`, before
any JIT initialization. -/
theorem c5_m_domain_new_versions :
    (∀ assembly_dir config_dir root_domain_name : String,
      m_domain_new assembly_dir config_dir root_domain_name MRuntime.M_RUNTIME_4_0
        = Outcome.ok { domain := mono_jit_init_version root_domain_name "v4.0.30319" } ∧
      m_domain_new assembly_dir config_dir root_domain_name MRuntime.M_RUNTIME_4_5
        = Outcome.ok { domain := mono_jit_init_version root_domain_name "v4.0.30319" }) ∧
    (∀ (assembly_dir config_dir root_domain_name : String) (n : Nat),
      m_domain_new assembly_dir config_dir root_domain_name (MRuntime.M_RUNTIME_OTHER n)
        = Outcome.fatal "M: Invalid runtime version.") :=
  ⟨fun _ _ _ => ⟨rfl, rfl⟩, fun _ _ _ _ => rfl⟩

/-- C7: `m_object_unbox` on a NULL handle is a fatal `g_error` with the
diagnostic "M: Cannot unbox null object." — the check precedes any
dereference, so the outcome is `fatal`, not `crash` — and on any non-null
handle it returns the raw storage address `mono_object_unbox` yields. -/
theorem c7_m_object_unbox_null_fatal :
    (m_object_unbox { __priv := 0 } = Outcome.fatal "M: Cannot unbox null object.") ∧
    (∀ p : Int, p ≠ 0 → m_object_unbox { __priv := p } = Outcome.ok (mono_object_unbox p)) := by
  constructor
  · rfl
  · intro p hp
    unfold m_object_unbox
    simp [hp]

/-- C7 witness: unboxing the non-null handle 8 returns its storage
address 24. -/
theorem c7_witness : m_object_unbox { __priv := 8 } = Outcome.ok 24 :=
  c7_m_object_unbox_null_fatal.2 8 (by decide)

/-- C8: on any heap, `m_array_length` applied to the array `m_array_int32 n`
allocates yields exactly n, for n = 0, 1, 1000. -/
theorem c8_array_length_roundtrip (h : MonoHeap) :
    m_array_length (m_array_int32 h 0).2 (m_array_int32 h 0).1 = 0 ∧
    m_array_length (m_array_int32 h 1).2 (m_array_int32 h 1).1 = 1 ∧
    m_array_length (m_array_int32 h 1000).2 (m_array_int32 h 1000).1 = 1000 := by
  refine ⟨?_, ?_, ?_⟩ <;>
    simp [m_array_int32, m_array_length, mono_array_new, mono_array_length]

/-- C10: `m_object_get_property` and `m_object_get_property_array` perform
the same computation; the raw runtime handle inside the `MObject` the
former returns equals the raw handle inside the `MArray` the latter
returns, on every world, object handle and property name (and the fatal /
crash outcomes agree as well). -/
theorem c10_get_property_extensionally_equal (w : World) (object : MObject) (property_name : String) :
    Outcome.map MObject.__priv (m_object_get_property w object property_name) =
    Outcome.map MArray.__priv (m_object_get_property_array w object property_name) := by
  unfold m_object_get_property m_object_get_property_array
  cases hc : mono_object_get_class w object.__priv with
  | fatal s => rfl
  | crash => rfl
  | ok klass =>
    simp only [Outcome.bind]
    by_cases hs : mono_type_is_struct (mono_class_get_type klass) <;>
      simp only [hs, if_true, if_false, reduceIte] <;>
      cases hp : mono_class_get_property_from_name klass property_name <;>
        simp [mono_property_get_value, Outcome.map]

/-- A class with no members and reference-type semantics. -/
def emptyClass : MonoClass :=
  { type := { is_struct := false }, methods := [], props := [], fields := [] }

/-- A value-type ("struct") class with a 2-argument constructor, handle 11. -/
def structClass : MonoClass :=
  { type := { is_struct := true }, methods := [(".ctor", 2, 11)], props := [], fields := [] }

/-- A reference-type class with a 0-argument constructor, handle 12. -/
def refClass : MonoClass :=
  { type := { is_struct := false }, methods := [(".ctor", 0, 12)], props := [], fields := [] }

/-- An image named "T" holding `structClass` at NS.SC and `refClass` at
NS.RC, and resolving no method descriptors. -/
def imageT : MonoImage :=
  { name := "T"
    classes := [("NS", "SC", structClass), ("NS", "RC", refClass)]
    methods := [] }

/-- The loaded assembly whose image is `imageT`. -/
def asmT : MonoAssembly := { image := imageT }

/-- A concrete runtime world: one loaded assembly ("T"), every live object
of class `emptyClass`, allocation at address 96, every invocation producing
handle 42, every property getter producing handle 0. -/
def wEx : World :=
  { assemblies := [asmT]
    klassOf := fun _ => emptyClass
    alloc := fun _ => 96
    invokeResult := fun _ _ _ => 42
    propGet := fun _ _ => 0 }

/-- An empty managed-array heap allocating from address 1. -/
def heap0 : MonoHeap := { arrays := [], next := 1 }

/-- C6: once the assembly and the type resolve, `m_object` invokes the
arity-matching constructor on the unboxed storage of the freshly allocated
object when the type is a value type, and on the boxed object itself when
it is a reference type, returning the allocated object either way; and when
no constructor of the given argument count exists, it terminates fatally
with the "Unable to find constructor" diagnostic. -/
theorem c6_m_object_ctor_dispatch (w : World) (init : Option MonoAssembly)
    (assembly_name name_space type_name : String) (argc : Nat) (args : List Int)
    (asm : MonoAssembly) (k : MonoClass)
    (hasm : find_assembly init assembly_name w.assemblies = some asm)
    (hk : mono_class_from_name (mono_assembly_get_image asm) name_space type_name = some k) :
    (∀ c, mono_class_get_method_from_name k ".ctor" argc = some c →
      m_object w init assembly_name name_space type_name argc args =
        Outcome.ok ({ __priv := mono_object_new w k },
          [RuntimeCall.invoke c
            (some (if mono_type_is_struct (mono_class_get_type k)
                   then mono_object_unbox (mono_object_new w k)
                   else mono_object_new w k))
            args])) ∧
    (mono_class_get_method_from_name k ".ctor" argc = none →
      m_object w init assembly_name name_space type_name argc args =
        Outcome.fatal ("M: Unable to find constructor for type " ++ type_name ++ ".\n")) := by
  constructor
  · intro c hc
    unfold m_object
    simp only [hasm, hk, hc]
    by_cases hs : mono_type_is_struct (mono_class_get_type k) <;>
      simp [hs, mono_runtime_invoke, Outcome.bind]
  · intro hc
    unfold m_object
    simp only [hasm, hk, hc]

/-- C6 witness: constructing NS.SC (a value type with 2-argument constructor
11) from assembly "T" in the concrete world allocates object 96 and invokes
the constructor on its unboxed storage at 112 (not on the boxed object). -/
theorem c6_witness :
    m_object wEx none "T" "NS" "SC" 2 [1, 2] =
      Outcome.ok ({ __priv := 96 }, [RuntimeCall.invoke 11 (some 112) [1, 2]]) := by
  have h := (c6_m_object_ctor_dispatch wEx none "T" "NS" "SC" 2 [1, 2] asmT structClass
    (by decide) (by decide)).1 11 (by decide)
  simpa using h

/-- C9: the claim expects fatal termination whenever the named assembly
cannot be resolved, but the `if (!assembly)` test in `m_invoke_method`
(m.c 276) only fires when the scan's uninitialized result slot happens to
be NULL.  Here the assembly "Missing" is not loaded (the world holds only
"T"), yet with a stale assembly pointer (`asmB`) in the uninitialized slot
the scan returns that stale assembly, and `m_invoke_method` proceeds to
resolve `NS.C:M` in the WRONG assembly's image and invoke it (with a NULL
receiver) instead of terminating fatally. -/
theorem c9_stale_slot_defeats_assembly_check :
    find_assembly (some asmB) "Missing" wEx.assemblies = some asmB ∧
    m_invoke_method wEx (some asmB) "Missing" "NS" "C" "M" [] =
      Outcome.ok ({ __priv := 42 }, [RuntimeCall.invoke 5 none []]) ∧
    (m_invoke_method wEx (some asmB) "Missing" "NS" "C" "M" []).isFatal = false := by
  refine ⟨by decide, by decide, by decide⟩

/-- C4 counterexample: a name-based resolution failure that is NOT diagnosed
fatally.  In the concrete world, object 8 has class `emptyClass`, on which
the property "NoSuchProp" does not resolve; `m_object_get_property` passes
the NULL property handle into `mono_property_get_value`, which dereferences
it — an undiagnosed crash, not a `g_error` with a descriptive message. -/
theorem c4_counterexample :
    mono_class_get_property_from_name (wEx.klassOf 8) "NoSuchProp" = none ∧
    m_object_get_property wEx { __priv := 8 } "NoSuchProp" = Outcome.crash ∧
    (m_object_get_property wEx { __priv := 8 } "NoSuchProp").isFatal = false := by
  refine ⟨rfl, rfl, rfl⟩

/-- C4 (amended): name-based resolution failures are fatally diagnosed only
where the code checks.  `m_object` diagnoses a missing constructor and
`m_invoke_method` diagnoses a NULL assembly-scan result and a missing
method descriptor; the remaining lookups — property in
`m_object_get_property`, field in `m_object_set_field`, method in
`m_object_invoke`, and the assembly scan in `m_array` (likewise the
assembly/type lookups of `m_object` and `m_array`) — are unchecked: the
NULL lookup result is passed into the runtime and dereferenced there, an
undiagnosed crash, neither a fatal diagnostic nor an error value. -/
theorem c4_resolution_policy_amended (w : World) (h : MonoHeap) (init : Option MonoAssembly)
    (o : MObject) (property_name field_name method_name : String)
    (assembly_name name_space type_name class_name : String)
    (argc : Nat) (args params : List Int) (value size : Int)
    (asm : MonoAssembly) (k : MonoClass) :
    (o.__priv ≠ 0 → mono_class_get_property_from_name (w.klassOf o.__priv) property_name = none →
      m_object_get_property w o property_name = Outcome.crash) ∧
    (o.__priv ≠ 0 → mono_class_get_field_from_name (w.klassOf o.__priv) field_name = none →
      m_object_set_field w o field_name value = Outcome.crash) ∧
    (o.__priv ≠ 0 → mono_class_get_method_from_name (w.klassOf o.__priv) method_name argc = none →
      m_object_invoke w o method_name argc args = Outcome.crash) ∧
    (find_assembly init assembly_name w.assemblies = none →
      m_array w h init assembly_name name_space type_name size = Outcome.crash) ∧
    (find_assembly init assembly_name w.assemblies = some asm →
      mono_class_from_name (mono_assembly_get_image asm) name_space type_name = some k →
      mono_class_get_method_from_name k ".ctor" argc = none →
      m_object w init assembly_name name_space type_name argc args
        = Outcome.fatal ("M: Unable to find constructor for type " ++ type_name ++ ".\n")) ∧
    (find_assembly init assembly_name w.assemblies = none →
      m_invoke_method w init assembly_name name_space class_name method_name params
        = Outcome.fatal ("M: Unable to find assembly " ++ assembly_name ++ ".\n")) ∧
    (find_assembly init assembly_name w.assemblies = some asm →
      mono_method_desc_search_in_image (get_method_desc name_space class_name method_name)
        (mono_assembly_get_image asm) = none →
      m_invoke_method w init assembly_name name_space class_name method_name params
        = Outcome.fatal ("M: Unable to invoke "
            ++ get_method_desc name_space class_name method_name ++ ".\n")) := by
  refine ⟨?_, ?_, ?_, ?_, ?_, ?_, ?_⟩
  · intro ho hp
    unfold m_object_get_property
    simp [mono_object_get_class, ho, hp, mono_property_get_value, Outcome.bind, Outcome.map]
  · intro ho hf
    unfold m_object_set_field
    simp [mono_object_get_class, ho, hf, mono_field_set_value, Outcome.bind]
  · intro ho hm
    unfold m_object_invoke
    simp [mono_object_get_class, ho, hm, mono_runtime_invoke, Outcome.bind]
  · intro hfa
    unfold m_array
    simp only [hfa]
  · intro hfa hk hc
    unfold m_object
    simp only [hfa, hk, hc]
  · intro hfa
    unfold m_invoke_method
    simp only [hfa]
  · intro hfa hd
    unfold m_invoke_method
    simp only [hfa, hd]

/-- C4 witness: concrete instances of each amended conjunct — undiagnosed
crashes for missing property / field / instance method / assembly in the
unchecked operations, and fatal diagnostics for the missing constructor in
`m_object` and the missing assembly / descriptor in `m_invoke_method`. -/
theorem c4_witness :
    m_object_get_property wEx { __priv := 8 } "P" = Outcome.crash ∧
    m_object_set_field wEx { __priv := 8 } "F" 3 = Outcome.crash ∧
    m_object_invoke wEx { __priv := 8 } "M" 1 [7] = Outcome.crash ∧
    m_array wEx heap0 none "Nope" "NS" "E" 4 = Outcome.crash ∧
    m_object wEx none "T" "NS" "SC" 5 []
      = Outcome.fatal ("M: Unable to find constructor for type " ++ "SC" ++ ".\n") ∧
    m_invoke_method wEx none "Nope" "NS" "C" "M" []
      = Outcome.fatal ("M: Unable to find assembly " ++ "Nope" ++ ".\n") ∧
    m_invoke_method wEx none "T" "NS" "C" "M" []
      = Outcome.fatal ("M: Unable to invoke " ++ get_method_desc "NS" "C" "M" ++ ".\n") := by
  have h1 := c4_resolution_policy_amended wEx heap0 none { __priv := 8 }
    "P" "F" "M" "Nope" "NS" "E" "C" 1 [7] [] 3 4 asmT structClass
  have h2 := c4_resolution_policy_amended wEx heap0 none { __priv := 8 }
    "P" "F" "M" "T" "NS" "SC" "C" 5 [] [] 3 4 asmT structClass
  exact ⟨h1.1 (by decide) rfl, h1.2.1 (by decide) rfl, h1.2.2.1 (by decide) rfl,
    h1.2.2.2.1 (by decide), h2.2.2.2.2.1 (by decide) (by decide) (by decide),
    h1.2.2.2.2.2.1 (by decide), h2.2.2.2.2.2.2 (by decide) (by decide)⟩
